import Mathlib

/-!
Shallow embedding of the node-contract core of `qtpynodeeditor`
(`src/qtpynodeeditor/node_data.py`) together with the calculator example
(`src/qtpynodeeditor/examples/calculator.py`), and proofs about the
spec-level properties of that code.

Python `dict[int, V]` values are embedded as association lists
(`List (Nat × V)`); the outer `dict[PortType, ...]` tables are embedded as a
pair of `Option`s (a direction key may be absent from the Python dict).
Python `float` numbers are embedded as `Rat`: none of the properties below
depends on floating-point rounding (the only arithmetic exercised is exact
small-number arithmetic and comparison with zero).
-/

/-- `PortType` enum from `enums.py`: direction of a port. -/
inductive PortType
  | input
  | output
deriving DecidableEq, Repr

/-- `NodeValidationState` enum from `enums.py`. -/
inductive NodeValidationState
  | valid
  | warning
  | error
deriving DecidableEq, Repr

/-- `NodeDataType = namedtuple("NodeDataType", ("id", "name"))`.
Both fields may be Python `None` (the base-class default is
`NodeDataType(None, None)`), hence `Option String`. -/
structure NodeDataType where
  id : Option String
  name : Option String
deriving DecidableEq, Repr

/-- The class-level default `NodeData.data_type = NodeDataType(None, None)`
(node_data.py line 27). -/
def NodeData.defaultDataType : NodeDataType := ⟨none, none⟩

/-- Attribute resolution for `data_type` on a class derived from `NodeData`:
`declared = none` means the subclass does not declare the attribute and
inherits the base default; `declared = some none` means the subclass
explicitly sets `data_type = None`; `declared = some (some t)` means it sets
a real `NodeDataType`. -/
def resolvedDataType (declared : Option (Option NodeDataType)) : Option NodeDataType :=
  match declared with
  | some v => v
  | none => some NodeData.defaultDataType

/-- `NodeData.__init_subclass__` (node_data.py lines 29-32) raises
`ValueError` iff `cls.data_type is None`. -/
def initSubclassRaises (declared : Option (Option NodeDataType)) : Bool :=
  (resolvedDataType declared).isNone

/-- `NodeData.same_type` (node_data.py line 46): compares `data_type.id`. -/
def sameType (a b : NodeDataType) : Bool :=
  a.id == b.id

/-- `DecimalData.data_type = NodeDataType("decimal", "Decimal")`
(calculator.py line 25). -/
def DecimalData.dataType : NodeDataType := ⟨some "decimal", some "Decimal"⟩

/-- `IntegerData.data_type = NodeDataType("integer", "Integer")`
(calculator.py line 48). -/
def IntegerData.dataType : NodeDataType := ⟨some "integer", some "Integer"⟩

/-- A `NodeData` envelope as the calculator nodes see it: its type identity
(`data_type.id`, possibly Python `None`) and its numeric payload. -/
structure Envelope where
  typeId : Option String
  number : Rat
deriving DecidableEq, Repr

/-- Shorthand for a `DecimalData(x)` envelope. -/
def decimalEnv (x : Rat) : Envelope := ⟨some "decimal", x⟩

/-- Shorthand for an `IntegerData(x)` envelope. -/
def integerEnv (x : Rat) : Envelope := ⟨some "integer", x⟩

/-- The instance state of a `MathOperationDataModel`
(calculator.py lines 74-80): the two stored input envelopes, the stored
result, and the validation state/message pair. -/
structure MathState where
  number1 : Option Envelope
  number2 : Option Envelope
  result : Option Envelope
  vstate : NodeValidationState
  vmessage : String
deriving DecidableEq, Repr

/-- The freshly-constructed state of a math node
(calculator.py lines 76-80). -/
def MathState.initial : MathState :=
  { number1 := none
    number2 := none
    result := none
    vstate := .warning
    vmessage := "Uninitialized" }

/-- The two Qt signals a math node emits, with the port index. -/
inductive Sig
  | updated (port : Nat)
  | invalidated (port : Nat)
deriving DecidableEq, Repr

/-- The per-input acceptance test inside
`MathOperationDataModel._check_inputs` (calculator.py lines 87-88):
the slot is not `None` and its `data_type.id` is `"decimal"` or
`"integer"`. -/
def inputOk (d : Option Envelope) : Bool :=
  match d with
  | none => false
  | some e => e.typeId == some "decimal" || e.typeId == some "integer"

/-- `MathOperationDataModel._check_inputs` (calculator.py lines 86-99).
Returns the mutated state, the signals emitted, and the boolean result.
Note the failure branch emits `data_updated.emit(0)` (line 94). -/
def checkInputs (s : MathState) : MathState × List Sig × Bool :=
  if inputOk s.number1 && inputOk s.number2 then
    ({ s with vstate := .valid, vmessage := "" }, [], true)
  else
    ({ s with vstate := .warning
              vmessage := "Missing or incorrect inputs"
              result := none },
     [Sig.updated 0], false)

/-- The five concrete binary-math node kinds of calculator.py. -/
inductive MathKind
  | addition
  | division
  | modulo
  | multiplication
  | subtraction
deriving DecidableEq, Repr

/-- Python float `%` on a nonzero divisor: `a - b * floor(a / b)`. -/
def pymod (a b : Rat) : Rat := a - b * ⌊a / b⌋

/-- The `compute` override of each concrete kind
(calculator.py lines 156-158, 171-180, 194-201, 214-215, 347-348).
Each reads the two stored inputs and stores the result; Division and Modulo
additionally set validation on divide-by-zero. The `| _, _ => s` arm is the
source's `assert` path, unreachable when `_check_inputs` has passed. -/
def compute : MathKind → MathState → MathState
  | .addition, s =>
    match s.number1, s.number2 with
    | some a, some b => { s with result := some (decimalEnv (a.number + b.number)) }
    | _, _ => s
  | .division, s =>
    match s.number1, s.number2 with
    | some a, some b =>
      if b.number == 0 then
        { s with vstate := .error
                 vmessage := "Division by zero error"
                 result := none }
      else
        { s with vstate := .valid
                 vmessage := ""
                 result := some (decimalEnv (a.number / b.number)) }
    | _, _ => s
  | .modulo, s =>
    match s.number1, s.number2 with
    | some a, some b =>
      if b.number == 0 then
        { s with vstate := .error
                 vmessage := "Division by zero error"
                 result := none }
      else
        { s with result := some (decimalEnv (pymod a.number b.number)) }
    | _, _ => s
  | .multiplication, s =>
    match s.number1, s.number2 with
    | some a, some b => { s with result := some (decimalEnv (a.number * b.number)) }
    | _, _ => s
  | .subtraction, s =>
    match s.number1, s.number2 with
    | some a, some b => { s with result := some (decimalEnv (a.number - b.number)) }
    | _, _ => s

/-- The slot assignment at the top of `MathOperationDataModel.set_in_data`
(calculator.py lines 134-137): port 0 stores into `_number1`, port 1 into
`_number2`, any other index stores nothing. -/
def assignInput (s : MathState) (data : Option Envelope) (portIndex : Nat) : MathState :=
  if portIndex == 0 then { s with number1 := data }
  else if portIndex == 1 then { s with number2 := data }
  else s

/-- The observable outcome of one `set_in_data` call: the new instance
state, the signals emitted in order, and whether `compute` was invoked. -/
structure MathStep where
  state : MathState
  sigs : List Sig
  computeCalled : Bool
deriving DecidableEq, Repr

/-- The tail of `MathOperationDataModel.set_in_data` after the slot
assignment (calculator.py lines 139-141): run `_check_inputs`; on success
enter `_compute_lock()` (which re-checks presence, acquires both input
locks), run `compute`, and on scope exit emit `data_updated.emit(0)`
(calculator.py lines 101-109). -/
def processInputs (k : MathKind) (s1 : MathState) : MathStep :=
  let c := checkInputs s1
  if c.2.2 then ⟨compute k c.1, c.2.1 ++ [Sig.updated 0], true⟩
  else ⟨c.1, c.2.1, false⟩

/-- `MathOperationDataModel.set_in_data` (calculator.py lines 125-141). -/
def setInData (k : MathKind) (s : MathState) (data : Option Envelope)
    (portIndex : Nat) : MathStep :=
  processInputs k (assignInput s data portIndex)

/-- `MathOperationDataModel.out_data` (calculator.py lines 111-123):
returns `self._result` for any port. -/
def outData (s : MathState) (_port : Nat) : Option Envelope :=
  s.result

/-- `MathOperationDataModel.all_data_types = DecimalData.data_type`
(calculator.py line 72). -/
def MathOperationDataModel.allDataTypes : Option NodeDataType :=
  some DecimalData.dataType

/-! ## The node metadata verifier (`NodeDataModel._verify`, node_data.py) -/

/-- A Python `dict[int, V]` as an association list. -/
abbrev PyDict (α : Type) := List (Nat × α)

/-- Python `i in dct`. -/
def PyDict.hasKey {α : Type} (d : PyDict α) (k : Nat) : Bool :=
  d.any fun p => p.1 == k

/-- The dict comprehension `{i: value for i in range(n)}` used by
`new_dict` (node_data.py lines 136-140), for one direction. -/
def newDirDict {α : Type} (n : Nat) (v : α) : PyDict α :=
  (List.range n).map fun i => (i, v)

/-- A Python `dict[PortType, dict[int, V]]`: either direction key may be
absent. -/
structure PortDict (α : Type) where
  input : Option (PyDict α)
  output : Option (PyDict α)
deriving DecidableEq, Repr

/-- `PortCount` (node_data.py lines 49-59). -/
structure PortCount where
  inputs : Nat
  outputs : Nat
deriving DecidableEq, Repr

/-- `PortCount.__getitem__`: index a `PortCount` by direction. -/
def PortCount.get (n : PortCount) : PortType → Nat
  | .input => n.inputs
  | .output => n.outputs

/-- `CaptionOverride` (node_data.py lines 62-65). -/
structure CaptionOverride where
  inputs : Option (PyDict String)
  outputs : Option (PyDict String)
deriving DecidableEq, Repr

/-- `DataTypes` (node_data.py lines 68-71). -/
structure DataTypes where
  inputs : PyDict NodeDataType
  outputs : PyDict NodeDataType
deriving DecidableEq, Repr

/-- The class-level declarations of a `NodeDataModel` subclass that
`_verify` consumes. `numPorts` is the static `num_ports` declaration (a
dynamically-computed `property` makes `_verify` return without checking,
node_data.py lines 131-133, and is outside this embedding).
`portCaptionVisible` is the user's `port_caption_visible` attribute:
unset, a scalar (broadcast by `fill_defaults`/`get_default`), or a full
per-direction dict (kept as-is). -/
structure ModelDecl where
  numPorts : PortCount
  captionOverride : Option CaptionOverride
  allDataTypes : Option NodeDataType
  dataTypes : Option DataTypes
  portCaptionVisible : Option (Bool ⊕ PortDict Bool)
deriving DecidableEq, Repr

/-- `new_dict(value)` (node_data.py lines 136-140): a fresh two-direction
table with every index in range for each direction. -/
def newDict {α : Type} (n : PortCount) (v : α) : PortDict α :=
  ⟨some (newDirDict n.inputs v), some (newDirDict n.outputs v)⟩

/-- Caption resolution (node_data.py lines 178-185): `_port_caption`
starts as `new_dict("")`; a provided `caption_override.inputs`/`.outputs`
dict then *replaces* that direction's table wholesale. -/
def resolveCaptions (m : ModelDecl) : PortDict String :=
  let base := newDict m.numPorts ""
  match m.captionOverride with
  | none => base
  | some co =>
    ⟨match co.inputs with
     | some d => some d
     | none => base.input,
     match co.outputs with
     | some d => some d
     | none => base.output⟩

/-- Data-type resolution (node_data.py lines 193-196), reached only after
the two declaration-error raises; the last two arms are therefore
unreachable from `verify` (kept to mirror the source's two sequential
`if` assignments, where `data_types` would win). -/
def resolveDataTypeTable (m : ModelDecl) : PortDict NodeDataType :=
  match m.allDataTypes, m.dataTypes with
  | some t, none => newDict m.numPorts t
  | none, some dts => ⟨some dts.inputs, some dts.outputs⟩
  | some _, some dts => ⟨some dts.inputs, some dts.outputs⟩
  | none, none => ⟨none, none⟩

/-- `fill_defaults("port_caption_visible", False)` (node_data.py lines
168-176 and 198): a user-provided dict is kept as-is; otherwise the scalar
(defaulting to `False` when unset) is broadcast with `new_dict`. -/
def resolvePcv (m : ModelDecl) : PortDict Bool :=
  match m.portCaptionVisible with
  | some (.inr d) => d
  | some (.inl b) => newDict m.numPorts b
  | none => newDict m.numPorts false

/-- One textual reason collected by the verification loop
(node_data.py lines 210-222), kept structured instead of formatted. -/
inductive Reason
  | missingPortTypeKey (attr : String) (pt : PortType)
  | missingPortKey (attr : String) (pt : PortType) (i : Nat)
deriving DecidableEq, Repr

/-- One direction of the verification loop body (node_data.py lines
210-222): an absent direction key with a zero count is inserted as `{}`;
an absent key with a nonzero count is one reason; a present dict yields
one reason per missing index in range. -/
def checkDir {α : Type} (attr : String) (pt : PortType) (count : Nat)
    (d : Option (PyDict α)) : Option (PyDict α) × List Reason :=
  match d with
  | none =>
    if count == 0 then (some [], [])
    else (none, [Reason.missingPortTypeKey attr pt])
  | some dct =>
    (some dct,
     (List.range count).filterMap fun i =>
       if dct.hasKey i then none else some (Reason.missingPortKey attr pt i))

/-- The verification loop over both directions of one table. The Python
loop iterates a two-element `set`; this embedding fixes the order
input-then-output (the order affects only reason ordering). -/
def checkTable {α : Type} (attr : String) (n : PortCount) (t : PortDict α) :
    PortDict α × List Reason :=
  let ci := checkDir attr .input n.inputs t.input
  let co := checkDir attr .output n.outputs t.output
  (⟨ci.1, co.1⟩, ci.2 ++ co.2)

/-- The ways `_verify` can raise: the immediate single-message
`ValueError` for both data-type declarations present (node_data.py lines
189-190), the immediate `AssertionError` for neither present (line 191),
and the final aggregated `ValueError` joining all collected reasons
(lines 224-226). -/
inductive VerifyError
  | simultaneousTypes
  | neitherTypes
  | aggregated (reasons : List Reason)
deriving DecidableEq, Repr

/-- The three derived tables `_verify` leaves on the class on success. -/
structure VerifiedTables where
  dataType : PortDict NodeDataType
  portCaption : PortDict String
  portCaptionVisible : PortDict Bool
deriving DecidableEq, Repr

/-- `NodeDataModel._verify` (node_data.py lines 120-226) for a kind with a
static `num_ports`. -/
def verify (m : ModelDecl) : Except VerifyError VerifiedTables :=
  let pc := resolveCaptions m
  if m.allDataTypes.isSome && m.dataTypes.isSome then
    .error .simultaneousTypes
  else if m.allDataTypes.isNone && m.dataTypes.isNone then
    .error .neitherTypes
  else
    let dt := resolveDataTypeTable m
    let pcv := resolvePcv m
    let cdt := checkTable "_data_type" m.numPorts dt
    let cpc := checkTable "_port_caption" m.numPorts pc
    let cpcv := checkTable "port_caption_visible" m.numPorts pcv
    let reasons := cdt.2 ++ cpc.2 ++ cpcv.2
    if reasons.isEmpty then .ok ⟨cdt.1, cpc.1, cpcv.1⟩
    else .error (.aggregated reasons)

/-! ## Lock/notification trace of `_compute_lock` (calculator.py) -/

/-- Events of the computation scope of a math node: lock operations on the
two input envelopes (1 = `_number1`, 2 = `_number2`), value reads, the
result store, and the Qt notification. -/
inductive LockEvent
  | acquire (n : Nat)
  | release (n : Nat)
  | readInput (n : Nat)
  | store
  | emitUpdated (port : Nat)
deriving DecidableEq, Repr

/-- `with self._number1.lock, self._number2.lock: <body>`
(calculator.py line 106): acquires in order, releases in reverse order on
every exit, normal or raising. -/
def nestedLockTrace (body : List LockEvent) : List LockEvent :=
  .acquire 1 :: .acquire 2 :: body ++ [.release 2, .release 1]

/-- The event trace of `with self._compute_lock(): <body>`
(calculator.py lines 101-109, 140-141): the generator wraps the yielded
body in the nested lock scope; `data_updated.emit(0)` after the inner
`with` runs only when the body did not raise (a raising body propagates
through the `yield` after the locks are released). -/
def computeLockTrace (body : List LockEvent) (bodyRaises : Bool) : List LockEvent :=
  nestedLockTrace body ++ (if bodyRaises then [] else [.emitUpdated 0])

/-- The body a concrete `compute` contributes: read both inputs, store the
result. -/
def computeBody : List LockEvent := [.readInput 1, .readInput 2, .store]

/-- Events a `compute` body may contain: reads and stores only (no lock
operations and no emissions of its own). -/
def LockEvent.isBodyEvent : LockEvent → Bool
  | .readInput _ => true
  | .store => true
  | _ => false

/-! ## Shared lemmas -/

/-- `compute` never touches the stored input slots. -/
theorem compute_preserves_inputs (k : MathKind) (s : MathState) :
    (compute k s).number1 = s.number1 ∧ (compute k s).number2 = s.number2 := by
  cases k <;> cases h1 : s.number1 <;> cases h2 : s.number2 <;>
    simp [compute, h1, h2] <;> split <;> simp

/-- Every observable of one `set_in_data` tail is determined by the two
stored input slots alone. -/
theorem processInputs_congr (k : MathKind) (s t : MathState)
    (h1 : s.number1 = t.number1) (h2 : s.number2 = t.number2) :
    processInputs k s = processInputs k t := by
  cases s with
  | mk n1 n2 r v msg =>
    cases t with
    | mk n1' n2' r' v' msg' =>
      simp only [MathState.number1, MathState.number2] at h1 h2
      subst h1
      subst h2
      cases k <;> cases n1 <;> cases n2 <;>
        simp [processInputs, checkInputs, compute, inputOk] <;>
        split <;> simp_all

/-- The `set_in_data` tail leaves both stored input slots untouched. -/
theorem processInputs_inputs (k : MathKind) (s : MathState) :
    (processInputs k s).state.number1 = s.number1 ∧
    (processInputs k s).state.number2 = s.number2 := by
  have h := compute_preserves_inputs k
  simp only [processInputs, checkInputs]
  split <;> simp_all

/-! ## Claim theorems: NodeData subclass creation (C1) -/

/-- Claim C1 (code evaluated at the failing input): a subclass of
`NodeData` that does not declare a `data_type` attribute of its own
inherits the base default `NodeDataType(None, None)`, which is not Python
`None`, so `__init_subclass__` raises nothing at class-creation time; the
guard fires only when a subclass explicitly sets `data_type = None`. -/
theorem c1_missing_data_type_not_detected :
    initSubclassRaises none = false ∧
    resolvedDataType none = some NodeData.defaultDataType ∧
    initSubclassRaises (some none) = true := by
  decide

/-! ## Claim theorems: two-input gating and validation (C2, C6) -/

/-- Claim C2, counterexample to the stated signal: at a concrete input
(a fresh Addition node receiving one decimal envelope on port 0, the other
slot empty) the failure path of `set_in_data` emits `data_updated(0)` and
no `data_invalidated` signal, contradicting the claim that the "output 0
invalidated" notification (and not "updated") is emitted. -/
theorem c2_counterexample :
    (setInData .addition MathState.initial (some (decimalEnv 2)) 0).sigs
      = [Sig.updated 0] ∧
    Sig.invalidated 0 ∉
      (setInData .addition MathState.initial (some (decimalEnv 2)) 0).sigs := by
  have h : (setInData .addition MathState.initial (some (decimalEnv 2)) 0).sigs
      = [Sig.updated 0] := rfl
  refine ⟨h, ?_⟩
  rw [h]
  simp

/-- Claim C2 as amended: for every binary-math kind, whenever `set_in_data`
leaves one or both input slots empty or holding an envelope of an
unaccepted type, the node sets validation state = warning with message
"Missing or incorrect inputs", clears the stored result, emits the
`data_updated(0)` notification (and no `data_invalidated` notification),
and never calls `compute`. -/
theorem c2_incomplete_inputs (k : MathKind) (s : MathState)
    (d : Option Envelope) (p : Nat)
    (h : (inputOk (assignInput s d p).number1 &&
          inputOk (assignInput s d p).number2) = false) :
    (setInData k s d p).state.vstate = .warning ∧
    (setInData k s d p).state.vmessage = "Missing or incorrect inputs" ∧
    (setInData k s d p).state.result = none ∧
    (setInData k s d p).sigs = [Sig.updated 0] ∧
    (setInData k s d p).computeCalled = false := by
  simp [setInData, processInputs, checkInputs, h]

/-- Witness for `c2_incomplete_inputs` at a concrete input. -/
theorem c2_witness :
    (inputOk (assignInput MathState.initial (some (decimalEnv 2)) 0).number1 &&
     inputOk (assignInput MathState.initial (some (decimalEnv 2)) 0).number2) = false ∧
    (setInData .addition MathState.initial (some (decimalEnv 2)) 0).state.vstate
      = .warning := by
  exact ⟨by rfl,
    (c2_incomplete_inputs .addition MathState.initial (some (decimalEnv 2)) 0
      (by rfl)).1⟩

/-- Claim C6: for a binary-math kind, a `set_in_data` call that leaves one
of the two input slots empty yields validation state = warning with message
"Missing or incorrect inputs", and `out_data` returns nothing. -/
theorem c6_two_input_gating (k : MathKind) (s : MathState)
    (d : Option Envelope) (p : Nat)
    (h : (assignInput s d p).number1 = none ∨ (assignInput s d p).number2 = none) :
    (setInData k s d p).state.vstate = .warning ∧
    (setInData k s d p).state.vmessage = "Missing or incorrect inputs" ∧
    outData (setInData k s d p).state 0 = none := by
  have hc : (inputOk (assignInput s d p).number1 &&
      inputOk (assignInput s d p).number2) = false := by
    rcases h with h | h <;> rw [h] <;> simp [inputOk]
  simp [setInData, processInputs, checkInputs, outData, hc]

/-- Witness for `c6_two_input_gating`: a fresh Addition node fed a single
decimal envelope on port 0. -/
theorem c6_witness :
    ((assignInput MathState.initial (some (decimalEnv 2)) 0).number1 = none ∨
     (assignInput MathState.initial (some (decimalEnv 2)) 0).number2 = none) ∧
    outData (setInData .addition MathState.initial (some (decimalEnv 2)) 0).state 0
      = none := by
  exact ⟨Or.inr (by rfl),
    (c6_two_input_gating .addition MathState.initial (some (decimalEnv 2)) 0
      (Or.inr (by rfl))).2.2⟩

/-! ## Claim theorems: division by zero (C7) -/

/-- Claim C7: feeding a Division node a dividend envelope holding 10.0 on
port 0 and then a divisor envelope holding 0.0 on port 1 leaves it in
validation state error with message "Division by zero error", and
`out_data(0)` returns nothing. -/
theorem c7_division_by_zero :
    (setInData .division
      (setInData .division MathState.initial (some (decimalEnv 10)) 0).state
      (some (decimalEnv 0)) 1).state.vstate = .error ∧
    (setInData .division
      (setInData .division MathState.initial (some (decimalEnv 10)) 0).state
      (some (decimalEnv 0)) 1).state.vmessage = "Division by zero error" ∧
    outData (setInData .division
      (setInData .division MathState.initial (some (decimalEnv 10)) 0).state
      (some (decimalEnv 0)) 1).state 0 = none := by
  refine ⟨?_, ?_, ?_⟩ <;> rfl

/-! ## Claim theorems: propagation idempotence (C8) -/

/-- Claim C8: for every binary-math kind, pushing the same
(port, envelope) pair to `set_in_data` twice in a row produces exactly the
same observable outcome (state, including the output envelope and the
validation state/message, signals, and whether `compute` ran) as pushing
it once. -/
theorem c8_idempotence (k : MathKind) (s : MathState) (d : Option Envelope)
    (p : Nat) :
    setInData k (setInData k s d p).state d p = setInData k s d p := by
  unfold setInData
  apply processInputs_congr
  · by_cases h0 : p = 0
    · simp [assignInput, h0]
    · by_cases h1 : p = 1 <;> simp [assignInput, h0, h1] <;>
        exact (processInputs_inputs k _).1
  · by_cases h0 : p = 0
    · simp [assignInput, h0]
      exact (processInputs_inputs k _).2
    · by_cases h1 : p = 1
      · simp [assignInput, h0, h1]
      · simp [assignInput, h0, h1]
        exact (processInputs_inputs k _).2

/-! ## Claim theorems: accepted input type ids (C10) -/

/-- Claim C10: every binary-math kind declares all its ports decimal-typed
(`all_data_types = DecimalData.data_type`), yet its input check accepts an
envelope whose `data_type.id` is `"decimal"` or `"integer"` and rejects
(treats as missing, failing `_check_inputs`) an envelope with any other
type id. -/
theorem c10_accepted_type_ids :
    MathOperationDataModel.allDataTypes = some DecimalData.dataType ∧
    inputOk none = false ∧
    (∀ e : Envelope, inputOk (some e) = true ↔
      (e.typeId = some "decimal" ∨ e.typeId = some "integer")) ∧
    (∀ s : MathState,
      (checkInputs s).2.2 = (inputOk s.number1 && inputOk s.number2)) := by
  refine ⟨rfl, rfl, ?_, ?_⟩
  · intro e
    simp [inputOk]
  · intro s
    simp only [checkInputs]
    split <;> simp_all

/-! ## Claim theorems: verifier table totality (C3) -/

/-- One direction of verifier totality: a table direction with an empty
reason list is present and covers every declared index. -/
theorem checkDir_ok {α : Type} (attr : String) (pt : PortType) (count : Nat)
    (d : Option (PyDict α)) (h : (checkDir attr pt count d).2 = []) :
    ∃ d2, (checkDir attr pt count d).1 = some d2 ∧
      ∀ j, j < count → d2.hasKey j = true := by
  cases d with
  | none =>
    simp only [checkDir] at h ⊢
    split at h
    · next hc =>
      refine ⟨[], by simp_all, ?_⟩
      intro j hj
      simp at hc
      omega
    · simp at h
  | some dct =>
    simp only [checkDir] at h ⊢
    refine ⟨dct, rfl, ?_⟩
    intro j hj
    rw [List.filterMap_eq_nil_iff] at h
    have := h j (List.mem_range.mpr hj)
    by_contra hk
    simp [Bool.not_eq_true] at hk
    rw [hk] at this
    simp at this

/-- Both directions of one table, after a check with no reasons. -/
def coversPorts {α : Type} (n : PortCount) (t : PortDict α) : Prop :=
  (∃ d, t.input = some d ∧ ∀ j, j < n.inputs → d.hasKey j = true) ∧
  (∃ d, t.output = some d ∧ ∀ j, j < n.outputs → d.hasKey j = true)

/-- A table whose verification loop collected no reasons has both direction
keys present and every declared index present in each direction. -/
theorem checkTable_ok {α : Type} (attr : String) (n : PortCount)
    (t : PortDict α) (h : (checkTable attr n t).2 = []) :
    coversPorts n (checkTable attr n t).1 := by
  simp only [checkTable, List.append_eq_nil] at h ⊢
  exact ⟨checkDir_ok attr .input n.inputs t.input h.1,
         checkDir_ok attr .output n.outputs t.output h.2⟩

/-- Claim C3 as amended: for every node kind with a static
`num_ports = (i, o)` that passes verification, each of the three derived
tables has both direction keys present and contains an entry for every
declared index (`0..i` for inputs, `0..o` for outputs); a direction whose
declared count is zero is present and maps to a table requiring no entries.
(The tables may contain additional entries beyond the declared counts when
an override or user-supplied dict carries extra keys — see
`c3_counterexample`.) -/
theorem c3_verified_tables_cover_ports (m : ModelDecl) (t : VerifiedTables)
    (h : verify m = Except.ok t) :
    coversPorts m.numPorts t.dataType ∧
    coversPorts m.numPorts t.portCaption ∧
    coversPorts m.numPorts t.portCaptionVisible := by
  simp only [verify] at h
  split at h
  · exact absurd h (by simp)
  split at h
  · exact absurd h (by simp)
  split at h
  · next hemp =>
    injection h with h
    rw [← h]
    rw [List.isEmpty_iff, List.append_eq_nil, List.append_eq_nil] at hemp
    exact ⟨checkTable_ok _ _ _ hemp.1.1, checkTable_ok _ _ _ hemp.1.2,
           checkTable_ok _ _ _ hemp.2⟩
  · exact absurd h (by simp)

/-- A `NodeDataModel` declaration shaped like the claim's counterexample:
two declared inputs, zero declared outputs, and a `caption_override` whose
input dict carries three entries. -/
def c3Decl : ModelDecl :=
  { numPorts := ⟨2, 0⟩
    captionOverride := some ⟨some [(0, "A"), (1, "B"), (2, "C")], none⟩
    allDataTypes := some DecimalData.dataType
    dataTypes := none
    portCaptionVisible := none }

/-- Claim C3, counterexample to the stated exactness: `c3Decl` passes
verification, yet its caption table holds three input entries where the
claim requires exactly two, and its zero-count output direction is present
as a key (mapping to an empty dict) where the claim requires the direction
to be absent. -/
theorem c3_counterexample :
    c3Decl.numPorts = ⟨2, 0⟩ ∧
    (verify c3Decl).toOption.map
        (fun t => ((t.portCaption.input.getD []).length,
                   t.portCaption.output.isSome))
      = some (3, true) ∧
    ¬(3 = 2) := by
  refine ⟨rfl, by rfl, by omega⟩

/-- Witness for `c3_verified_tables_cover_ports`: the `DivisionModel`
declaration of calculator.py (lines 161-169). -/
def divisionDecl : ModelDecl :=
  { numPorts := ⟨2, 1⟩
    captionOverride :=
      some ⟨some [(0, "Dividend"), (1, "Divisor")], some [(0, "Result")]⟩
    allDataTypes := some DecimalData.dataType
    dataTypes := none
    portCaptionVisible := none }

/-- The tables `_verify` derives for `divisionDecl`. -/
def divisionTables : VerifiedTables :=
  { dataType := ⟨some [(0, DecimalData.dataType), (1, DecimalData.dataType)],
                 some [(0, DecimalData.dataType)]⟩
    portCaption := ⟨some [(0, "Dividend"), (1, "Divisor")],
                    some [(0, "Result")]⟩
    portCaptionVisible := ⟨some [(0, false), (1, false)], some [(0, false)]⟩ }

/-- Witness for `c3_verified_tables_cover_ports` at the concrete
`DivisionModel` declaration. -/
theorem c3_witness :
    verify divisionDecl = Except.ok divisionTables ∧
    coversPorts divisionDecl.numPorts divisionTables.portCaption := by
  exact ⟨by rfl,
    (c3_verified_tables_cover_ports divisionDecl divisionTables (by rfl)).2.1⟩

/-! ## Claim theorems: error aggregation in the verifier (C4) -/

/-- All reasons the table-check loop of `_verify` collects, across the
three derived tables, in loop order. -/
def allReasons (m : ModelDecl) : List Reason :=
  (checkTable "_data_type" m.numPorts (resolveDataTypeTable m)).2 ++
  (checkTable "_port_caption" m.numPorts (resolveCaptions m)).2 ++
  (checkTable "port_caption_visible" m.numPorts (resolvePcv m)).2

/-- A declaration with two inconsistencies at once: both data-type
declarations present, and a `caption_override` covering input 0 only out
of two declared inputs. -/
def c4Decl : ModelDecl :=
  { numPorts := ⟨2, 1⟩
    captionOverride := some ⟨some [(0, "A")], none⟩
    allDataTypes := some DecimalData.dataType
    dataTypes := some ⟨[(0, DecimalData.dataType), (1, DecimalData.dataType)],
                       [(0, DecimalData.dataType)]⟩
    portCaptionVisible := none }

/-- Claim C4, counterexample: `c4Decl` has two distinct inconsistencies
(simultaneous data-type declarations, and a missing `_port_caption` entry
at input index 1), yet `_verify` raises the single-message
simultaneous-declaration error alone — the missing caption entry the
table check would report is not enumerated with it. -/
theorem c4_counterexample :
    verify c4Decl = Except.error VerifyError.simultaneousTypes ∧
    (checkTable "_port_caption" c4Decl.numPorts (resolveCaptions c4Decl)).2
      = [Reason.missingPortKey "_port_caption" PortType.input 1] := by
  exact ⟨rfl, rfl⟩

/-- Claim C4 as amended: the missing-table-entry inconsistencies are
aggregated into one error enumerating every one of them across all three
tables; the data-type declaration inconsistencies (both declared, or
neither declared) are instead raised immediately and individually, before
the table check, and are never aggregated with the rest. -/
theorem c4_error_aggregation (m : ModelDecl) :
    (m.allDataTypes.isSome = true → m.dataTypes.isSome = true →
      verify m = Except.error VerifyError.simultaneousTypes) ∧
    (m.allDataTypes = none → m.dataTypes = none →
      verify m = Except.error VerifyError.neitherTypes) ∧
    (∀ rs, verify m = Except.error (VerifyError.aggregated rs) →
      rs = allReasons m) := by
  refine ⟨?_, ?_, ?_⟩
  · intro h1 h2
    simp [verify, h1, h2]
  · intro h1 h2
    simp [verify, h1, h2]
  · intro rs h
    simp only [verify] at h
    split at h
    · exact absurd h (by simp)
    split at h
    · exact absurd h (by simp)
    split at h
    · exact absurd h (by simp)
    · simp only [Except.error.injEq, VerifyError.aggregated.injEq] at h
      rw [← h]
      rfl

/-- A declaration with neither `all_data_types` nor `data_types`. -/
def c4NeitherDecl : ModelDecl :=
  { numPorts := ⟨1, 1⟩
    captionOverride := none
    allDataTypes := none
    dataTypes := none
    portCaptionVisible := none }

/-- A declaration whose only inconsistency is a partial caption override,
reaching the aggregated error. -/
def c4MissingDecl : ModelDecl :=
  { numPorts := ⟨2, 1⟩
    captionOverride := some ⟨some [(0, "A")], none⟩
    allDataTypes := some DecimalData.dataType
    dataTypes := none
    portCaptionVisible := none }

/-- Witness for `c4_error_aggregation` at concrete declarations for each
of its three branches. -/
theorem c4_witness :
    verify c4Decl = Except.error VerifyError.simultaneousTypes ∧
    verify c4NeitherDecl = Except.error VerifyError.neitherTypes ∧
    [Reason.missingPortKey "_port_caption" PortType.input 1]
      = allReasons c4MissingDecl := by
  exact ⟨(c4_error_aggregation c4Decl).1 rfl rfl,
         (c4_error_aggregation c4NeitherDecl).2.1 rfl rfl,
         (c4_error_aggregation c4MissingDecl).2.2 _ rfl⟩

/-! ## Claim theorems: caption-override resolution (C5) -/

/-- A declaration with two inputs whose `caption_override` covers only
input index 0. -/
def c5Decl : ModelDecl :=
  { numPorts := ⟨2, 1⟩
    captionOverride := some ⟨some [(0, "A")], none⟩
    allDataTypes := some DecimalData.dataType
    dataTypes := none
    portCaptionVisible := none }

/-- Claim C5, counterexample: for `c5Decl` the resolved caption table's
input direction is exactly the override dict `{0: "A"}` — index 1 carries
no blank entry — and verification consequently fails with a
missing-entry error instead of succeeding with a blank-completed table. -/
theorem c5_counterexample :
    resolveCaptions c5Decl = ⟨some [(0, "A")], some [(0, "")]⟩ ∧
    ((resolveCaptions c5Decl).input.getD []).hasKey 1 = false ∧
    verify c5Decl = Except.error (VerifyError.aggregated
      [Reason.missingPortKey "_port_caption" PortType.input 1]) := by
  exact ⟨rfl, rfl, rfl⟩

/-- Claim C5 as amended: caption resolution starts from an all-blank table
with one entry per declared index in each direction, but a provided
`caption_override.inputs`/`.outputs` dict *replaces* that direction's
table wholesale (it is not overlaid); a direction without an override dict
keeps the all-blank table, and indices a partial override leaves uncovered
are simply missing (to be reported by the later completeness check). -/
theorem c5_caption_replacement (m : ModelDecl) (co : CaptionOverride)
    (h : m.captionOverride = some co) :
    (∀ d, co.inputs = some d → (resolveCaptions m).input = some d) ∧
    (co.inputs = none →
      (resolveCaptions m).input = some (newDirDict m.numPorts.inputs "")) ∧
    (∀ d, co.outputs = some d → (resolveCaptions m).output = some d) ∧
    (co.outputs = none →
      (resolveCaptions m).output = some (newDirDict m.numPorts.outputs "")) := by
  refine ⟨?_, ?_, ?_, ?_⟩
  · intro d hd
    simp [resolveCaptions, h, hd]
  · intro hd
    simp [resolveCaptions, h, hd, newDict]
  · intro d hd
    simp [resolveCaptions, h, hd]
  · intro hd
    simp [resolveCaptions, h, hd, newDict]

/-- Witness for `c5_caption_replacement` at `c5Decl`: the partial input
override replaces the input table; the absent output override leaves the
blank output table. -/
theorem c5_witness :
    c5Decl.captionOverride = some ⟨some [(0, "A")], none⟩ ∧
    (resolveCaptions c5Decl).input = some [(0, "A")] ∧
    (resolveCaptions c5Decl).output
      = some (newDirDict c5Decl.numPorts.outputs "") := by
  refine ⟨rfl, ?_, ?_⟩
  · exact (c5_caption_replacement c5Decl ⟨some [(0, "A")], none⟩ rfl).1 _ rfl
  · exact (c5_caption_replacement c5Decl ⟨some [(0, "A")], none⟩ rfl).2.2.2 rfl

/-! ## Claim theorems: lock discipline of `_compute_lock` (C9) -/

/-- Claim C9: in the computation scope of a binary-math node, both input
envelopes' locks are acquired (in order) before any other event — in
particular before either input's value is read; each lock is acquired and
released exactly once on every exit path, including the path where the
body (`compute`) raises; and on the completing path the "output 0 updated"
notification is emitted exactly once, strictly after both locks are
released (no notification is emitted on the raising path). -/
theorem c9_lock_discipline (body : List LockEvent) (raises : Bool)
    (h : ∀ e ∈ body, e.isBodyEvent = true) :
    (computeLockTrace body raises).take 2
      = [LockEvent.acquire 1, LockEvent.acquire 2] ∧
    (computeLockTrace body raises).count (LockEvent.acquire 1) = 1 ∧
    (computeLockTrace body raises).count (LockEvent.acquire 2) = 1 ∧
    (computeLockTrace body raises).count (LockEvent.release 1) = 1 ∧
    (computeLockTrace body raises).count (LockEvent.release 2) = 1 ∧
    (raises = true → computeLockTrace body raises
      = LockEvent.acquire 1 :: LockEvent.acquire 2 :: body
          ++ [LockEvent.release 2, LockEvent.release 1]) ∧
    (raises = false → computeLockTrace body raises
      = LockEvent.acquire 1 :: LockEvent.acquire 2 :: body
          ++ [LockEvent.release 2, LockEvent.release 1,
              LockEvent.emitUpdated 0]) ∧
    (raises = false →
      (computeLockTrace body raises).count (LockEvent.emitUpdated 0) = 1) := by
  have hnot : ∀ e : LockEvent, e.isBodyEvent = false → e ∉ body := by
    intro e he hmem
    rw [h e hmem] at he
    exact absurd he (by simp)
  have hcount : ∀ e : LockEvent, e.isBodyEvent = false → body.count e = 0 :=
    fun e he => List.count_eq_zero.mpr (hnot e he)
  refine ⟨?_, ?_, ?_, ?_, ?_, ?_, ?_, ?_⟩
  · simp [computeLockTrace, nestedLockTrace]
  · simp [computeLockTrace, nestedLockTrace, List.count_cons, List.count_append,
      hcount (LockEvent.acquire 1) rfl]
    cases raises <;> simp
  · simp [computeLockTrace, nestedLockTrace, List.count_cons, List.count_append,
      hcount (LockEvent.acquire 2) rfl]
    cases raises <;> simp
  · simp [computeLockTrace, nestedLockTrace, List.count_cons, List.count_append,
      hcount (LockEvent.release 1) rfl]
    cases raises <;> simp
  · simp [computeLockTrace, nestedLockTrace, List.count_cons, List.count_append,
      hcount (LockEvent.release 2) rfl]
    cases raises <;> simp
  · intro hr
    simp [computeLockTrace, nestedLockTrace, hr]
  · intro hr
    simp [computeLockTrace, nestedLockTrace, hr]
  · intro hr
    simp [computeLockTrace, nestedLockTrace, hr, List.count_cons,
      List.count_append, hcount (LockEvent.emitUpdated 0) rfl]

/-- Witness for `c9_lock_discipline` at the concrete
read-read-store body of a binary-math `compute`, on both the completing
and the raising path. -/
theorem c9_witness :
    (∀ e ∈ computeBody, e.isBodyEvent = true) ∧
    (computeLockTrace computeBody false).count (LockEvent.emitUpdated 0) = 1 ∧
    (computeLockTrace computeBody true).count (LockEvent.release 1) = 1 := by
  refine ⟨by decide, ?_, ?_⟩
  · exact (c9_lock_discipline computeBody false (by decide)).2.2.2.2.2.2.2 rfl
  · exact (c9_lock_discipline computeBody true (by decide)).2.2.2.1
